import Mathlib

/-!
Verification of the Taste Karachi guardrail + RAG core.

This file shallowly embeds `src/guardrails.py`, `src/rag.py` and the
`/inference` endpoint of `src/api.py` in Lean 4 and proves the claimed
properties about them.

Modelling conventions:
* Python strings are Lean `String`s; `str.lower()` is `pyLower`,
  `needle in hay` is substring containment (`csub`), `text.split()` is
  whitespace splitting with empty pieces dropped (`pyWords`).
* Python floats are modelled as exact rationals (`ℚ`); the scores involved
  are small decimal sums whose comparisons agree with the float run.
* The `re` regex engine is an external capability: each fixed pattern table
  is represented by an abstract match oracle (`ReOracle`), a parameter of
  every theorem about the pattern-based checks.  The competitor filter uses
  plain substring search and case-insensitive literal replacement, which are
  embedded concretely.
* The Chroma vector store and the LLM are external capabilities, modelled as
  total functions (`Store`, `Llm`); the `try/except` fallbacks around them
  are therefore never triggered.
* Prometheus counters/histograms and timestamps are observability side
  effects with no influence on any decision; they are not modelled.
* Pipelines additionally return a trace (the ordered list of checks or store
  queries that were executed) so that short-circuiting is observable.
-/

namespace TasteKarachi

/-! ## Python string primitives -/

/-- Does the character list `needle` occur contiguously inside `hay`?
Models Python `needle in hay` on strings (empty needle always matches). -/
def occursIn (needle : List Char) : List Char → Bool
  | [] => needle.isEmpty
  | c :: t => needle.isPrefixOf (c :: t) || occursIn needle t

/-- Python `needle in hay` for strings. -/
def csub (hay needle : String) : Bool :=
  occursIn needle.data hay.data

/-- Python `str.lower()` (the tables involved are ASCII). -/
def pyLower (s : String) : String :=
  ⟨s.data.map Char.toLower⟩

/-- Accumulator pass for Python `text.split()`: splits on whitespace runs
and drops empty pieces. -/
def wordsAux : List Char → List Char → List String
  | [], acc => if acc.isEmpty then [] else [⟨acc.reverse⟩]
  | c :: cs, acc =>
    if c.isWhitespace then
      (if acc.isEmpty then wordsAux cs [] else ⟨acc.reverse⟩ :: wordsAux cs [])
    else wordsAux cs (c :: acc)

/-- Python `text.split()`: split on whitespace, dropping empty pieces. -/
def pyWords (s : String) : List String :=
  wordsAux s.data []

/-- One left-to-right pass of case-insensitive literal replacement on
character lists.  `pat` is assumed to be already lower-cased (the competitor
table is lower-case); the scanned text is lowered position by position.
Models `re.sub(re.escape(pat), rep, text, flags=re.IGNORECASE)`. -/
def replCI (pat rep : List Char) : List Char → List Char
  | [] => []
  | c :: cs =>
    if pat ≠ [] ∧ pat.isPrefixOf ((c :: cs).map Char.toLower) then
      rep ++ replCI pat rep (cs.drop (pat.length - 1))
    else
      c :: replCI pat rep cs
termination_by l => l.length
decreasing_by
  · simp [List.length_drop]
    omega
  · simp

/-- Case-insensitive literal replacement on strings. -/
def pyReplaceCI (text pat rep : String) : String :=
  ⟨replCI (pyLower pat).data rep.data text.data⟩

/-! ## Guardrail data model (`guardrails.py` lines 82-124) -/

inductive GuardrailAction where
  | allow
  | block
  | modify
  | warn
deriving DecidableEq, Repr

/-- `GuardrailResult` dataclass.  The `timestamp` field (a wall-clock side
effect) is not modelled. -/
structure GuardrailResult where
  action : GuardrailAction
  rule_type : String
  reason : Option String := none
  modified_content : Option String := none
  confidence : ℚ := 1
deriving DecidableEq, Repr

/-- `GuardrailConfig` dataclass with its source defaults. -/
structure GuardrailConfig where
  enable_pii_detection : Bool := true
  enable_prompt_injection_filter : Bool := true
  enable_off_topic_detection : Bool := true
  enable_hallucination_filter : Bool := true
  enable_toxicity_filter : Bool := true
  enable_competitor_filter : Bool := false
  toxicity_threshold : ℚ := 7/10
  hallucination_threshold : ℚ := 1/2
  strict_mode : Bool := true
deriving DecidableEq, Repr

/-- The configuration obtained from `GuardrailConfig()` with no arguments. -/
def defaultConfig : GuardrailConfig := {}

/-- Abstract oracle for the `re` regex engine over the fixed pattern tables:
`pii ty t` says whether the PII pattern named `ty` has a match in `t`
(`re.findall(...)` non-empty); `injection t` / `offTopic t` / `toxicity t`
say whether any pattern of the corresponding table matches the (already
lower-cased) text `t` (`re.search`). -/
structure ReOracle where
  pii : String → String → Bool
  injection : String → Bool
  offTopic : String → Bool
  toxicity : String → Bool

/-! ## Fixed data tables (`guardrails.py`) -/

/-- Keys of `InputGuardrails.PII_PATTERNS`, in table order. -/
def piiTypes : List String :=
  ["email", "phone_pk", "phone_intl", "credit_card", "cnic", "passport"]

/-- `InputGuardrails.RESTAURANT_KEYWORDS`. -/
def restaurantKeywords : List String :=
  ["restaurant", "food", "menu", "dining", "cuisine", "chef", "kitchen",
   "service", "customer", "review", "rating", "karachi", "clifton", "dha",
   "price", "delivery", "takeout", "reservation", "table", "meal",
   "breakfast", "lunch", "dinner", "cafe", "coffee", "dessert", "chinese",
   "pakistani", "thai", "biryani", "bbq", "fast food", "outdoor seating",
   "ambiance", "taste", "flavor", "spicy", "halal"]

/-- Greeting tokens tested by `check_off_topic`. -/
def greetingWords : List String :=
  ["hi", "hello", "hey", "thanks", "thank you", "bye", "ok"]

/-- `OutputGuardrails.HALLUCINATION_PHRASES`. -/
def hallucinationPhrases : List String :=
  ["I think", "I believe", "probably", "might be", "could be",
   "I\x27m not sure but", "I don\x27t have direct access",
   "without real-time access", "I cannot verify", "based on my knowledge",
   "from my understanding", "generally speaking", "typically", "usually",
   "in most cases"]

/-- `OutputGuardrails.GROUNDED_PHRASES`. -/
def groundedPhrases : List String :=
  ["based on the reviews", "according to the data", "the reviews show",
   "customers mentioned", "from the database", "the feedback indicates",
   "reviews indicate", "based on customer feedback"]

/-- `OutputGuardrails.COMPETITOR_NAMES`. -/
def competitorNames : List String :=
  ["mcdonalds", "mcdonald\x27s", "kfc", "pizza hut", "dominos",
   "domino\x27s", "burger king", "subway", "hardees", "hardee\x27s"]

/-! ## Input checks (`guardrails.py` lines 224-339) -/

/-- `InputGuardrails.check_pii`. -/
def check_pii (rx : ReOracle) (text : String) : GuardrailResult :=
  let detected := piiTypes.filter (fun ty => rx.pii ty text)
  if detected ≠ [] then
    { action := .block
      rule_type := "pii_detection"
      reason := some ("PII detected: " ++ String.intercalate ", " detected) }
  else
    { action := .allow, rule_type := "pii_detection" }

/-- `InputGuardrails.check_prompt_injection`. -/
def check_prompt_injection (rx : ReOracle) (text : String) : GuardrailResult :=
  if rx.injection (pyLower text) then
    { action := .block
      rule_type := "prompt_injection"
      reason := some "Potential prompt injection detected" }
  else
    { action := .allow, rule_type := "prompt_injection" }

/-- `InputGuardrails.check_off_topic`. -/
def check_off_topic (rx : ReOracle) (text : String) : GuardrailResult :=
  let text_lower := pyLower text
  if rx.offTopic text_lower then
    { action := .block
      rule_type := "off_topic"
      reason := some "Off-topic or inappropriate content detected" }
  else
    let has_restaurant_context :=
      restaurantKeywords.any (fun kw => csub text_lower kw)
    let is_greeting :=
      decide ((pyWords text).length ≤ 5) &&
        greetingWords.any (fun g => csub text_lower g)
    if ¬has_restaurant_context ∧ ¬is_greeting ∧ (pyWords text).length > 10 then
      { action := .warn
        rule_type := "off_topic"
        reason := some "Message may be off-topic for restaurant consultation" }
    else
      { action := .allow, rule_type := "off_topic" }

/-! ## Input pipeline (`InputGuardrails.validate`, lines 341-368) -/

/-- The synthesized happy-path result of `validate`. -/
def allowAllInput : GuardrailResult :=
  { action := .allow, rule_type := "all_input_checks" }

/-- Off-topic stage of `validate` (third `if` block). -/
def validateStage3 (cfg : GuardrailConfig) (rx : ReOracle) (text : String)
    (trace : List String) : GuardrailResult × List String :=
  if cfg.enable_off_topic_detection then
    let r := check_off_topic rx text
    if r.action = .block ∧ cfg.strict_mode then (r, trace ++ ["off_topic"])
    else (allowAllInput, trace ++ ["off_topic"])
  else
    (allowAllInput, trace)

/-- Prompt-injection stage of `validate` (second `if` block). -/
def validateStage2 (cfg : GuardrailConfig) (rx : ReOracle) (text : String)
    (trace : List String) : GuardrailResult × List String :=
  if cfg.enable_prompt_injection_filter then
    let r := check_prompt_injection rx text
    if r.action = .block then (r, trace ++ ["prompt_injection"])
    else validateStage3 cfg rx text (trace ++ ["prompt_injection"])
  else
    validateStage3 cfg rx text trace

/-- `InputGuardrails.validate`, instrumented with the ordered list of checks
that were executed. -/
def validate (cfg : GuardrailConfig) (rx : ReOracle) (text : String) :
    GuardrailResult × List String :=
  if cfg.enable_pii_detection then
    let r := check_pii rx text
    if r.action = .block then (r, ["pii_detection"])
    else validateStage2 cfg rx text ["pii_detection"]
  else
    validateStage2 cfg rx text []

/-! ## Output checks (`guardrails.py` lines 439-591) -/

/-- `OutputGuardrails.check_toxicity`. -/
def check_toxicity (rx : ReOracle) (text : String) : GuardrailResult :=
  if rx.toxicity (pyLower text) then
    { action := .block
      rule_type := "toxicity_filter"
      reason := some "Potentially toxic content detected" }
  else
    { action := .allow, rule_type := "toxicity_filter" }

/-- Number of uncertainty phrases found in the (lower-cased) response. -/
def uncertaintyCount (response : String) : Nat :=
  (hallucinationPhrases.filter
    (fun p => csub (pyLower response) (pyLower p))).length

/-- Number of grounding phrases found in the (lower-cased) response. -/
def groundingCount (response : String) : Nat :=
  (groundedPhrases.filter
    (fun p => csub (pyLower response) (pyLower p))).length

/-- The word-overlap quotient computed by `check_hallucination`:
`len(response_words & context_words) / max(len(response_words), 1)`,
on lower-cased whitespace-tokenized word sets. -/
def overlapFrac (response : String) (ctx : List String) : ℚ :=
  let response_words := (pyWords (pyLower response)).dedup
  let context_words := (pyWords (pyLower (String.intercalate " " ctx))).dedup
  let overlap := (response_words.filter (fun w => w ∈ context_words)).length
  (overlap : ℚ) / (max response_words.length 1 : ℚ)

/-- The accumulated hallucination score of `check_hallucination`
(`retrieved_context = None` and `= []` behave identically; both are the
empty list here). -/
def hallucinationScore (response : String) (ctx : List String) : ℚ :=
  let s1 : ℚ := if uncertaintyCount response > 2 then 3/10 else 0
  let s2 : ℚ :=
    if groundingCount response = 0 ∧ response.length > 200 then 3/10 else 0
  let s3 : ℚ :=
    if ctx ≠ [] then (if overlapFrac response ctx < 1/10 then 4/10 else 0)
    else 0
  s1 + s2 + s3

/-- `OutputGuardrails.check_hallucination`.  The numeric score interpolated
into the Python `reason` string is carried in `confidence`; the fixed textual
part of the reason is kept. -/
def check_hallucination (cfg : GuardrailConfig) (response : String)
    (ctx : List String) : GuardrailResult :=
  let final_score := hallucinationScore response ctx
  if final_score ≥ cfg.hallucination_threshold then
    { action := .warn
      rule_type := "hallucination_filter"
      reason := some "Response may not be grounded in knowledge base"
      confidence := final_score }
  else
    { action := .allow
      rule_type := "hallucination_filter"
      confidence := 1 - final_score }

/-- `OutputGuardrails.check_competitor_mentions`. -/
def check_competitor_mentions (text : String) : GuardrailResult :=
  let text_lower := pyLower text
  let mentioned := competitorNames.filter (fun c => csub text_lower c)
  if mentioned ≠ [] then
    let modified_text :=
      mentioned.foldl
        (fun acc c => pyReplaceCI acc c "[competitor restaurant]") text
    { action := .modify
      rule_type := "competitor_filter"
      reason := some ("Competitor mentions filtered: " ++
        String.intercalate ", " mentioned)
      modified_content := some modified_text }
  else
    { action := .allow, rule_type := "competitor_filter" }

/-! ## Output pipeline (`OutputGuardrails.moderate`, lines 593-619) -/

/-- The synthesized happy-path result of `moderate`. -/
def allowAllOutput : GuardrailResult :=
  { action := .allow, rule_type := "all_output_checks" }

/-- Competitor stage of `moderate` (third `if` block). -/
def moderateStage3 (cfg : GuardrailConfig) (response : String)
    (trace : List String) : GuardrailResult × List String :=
  if cfg.enable_competitor_filter then
    let r := check_competitor_mentions response
    if r.action = .modify then (r, trace ++ ["competitor_filter"])
    else (allowAllOutput, trace ++ ["competitor_filter"])
  else
    (allowAllOutput, trace)

/-- Hallucination stage of `moderate` (second `if` block; the computed
`WARN` is retained only for logging and never returned). -/
def moderateStage2 (cfg : GuardrailConfig) (response : String)
    (ctx : List String) (trace : List String) : GuardrailResult × List String :=
  if cfg.enable_hallucination_filter then
    let r := check_hallucination cfg response ctx
    if r.action = .block then (r, trace ++ ["hallucination_filter"])
    else moderateStage3 cfg response (trace ++ ["hallucination_filter"])
  else
    moderateStage3 cfg response trace

/-- `OutputGuardrails.moderate`, instrumented with the ordered list of checks
that were executed. -/
def moderate (cfg : GuardrailConfig) (rx : ReOracle) (response : String)
    (ctx : List String) : GuardrailResult × List String :=
  if cfg.enable_toxicity_filter then
    let r := check_toxicity rx response
    if r.action = .block then (r, ["toxicity_filter"])
    else moderateStage2 cfg response ctx ["toxicity_filter"]
  else
    moderateStage2 cfg response ctx []

/-! ## Guardrail facade (`TasteKarachiGuardrails`, lines 627-684) -/

/-- `TasteKarachiGuardrails.get_blocked_response`. -/
def get_blocked_response (result : GuardrailResult) : String :=
  if result.rule_type = "pii_detection" then
    "I noticed your message contains personal information (like email, phone number, or ID). For your privacy and security, please remove any personal details and rephrase your question. I\x27m here to help with restaurant business advice!"
  else if result.rule_type = "prompt_injection" then
    "I\x27m designed to help with restaurant business advice for Taste Karachi. How can I assist you with your restaurant planning today?"
  else if result.rule_type = "off_topic" then
    "I specialize in restaurant business consultation for the Karachi market. I\x27d be happy to help with questions about menu planning, location strategy, customer experience, pricing, or any other restaurant-related topics. What would you like to know?"
  else if result.rule_type = "toxicity_filter" then
    "I\x27m here to provide helpful, professional advice for your restaurant business. Let me know how I can assist you with Taste Karachi!"
  else
    "I\x27m sorry, but I couldn\x27t process that request. How can I help you with your restaurant business today?"

/-! ## RAG engine (`rag.py`) -/

/-- A metadata value in a Chroma `$eq` condition: identity fields carry
strings, vibe fields carry booleans. -/
inductive MetaVal where
  | str (s : String)
  | bool (b : Bool)
deriving DecidableEq, Repr

/-- The argument tuple of one `_query_with_filters` call.  The identity
fields are `Option String` (`None` in Python is `none`); `vibe_features`
is the ordered list of active vibe field names (the Python `None` and the
empty dict behave identically in `_query_with_filters` and are both the
empty list here). -/
structure QuerySpec where
  category : Option String
  area : Option String
  price_level : Option String
  vibe_features : List String
  k : Nat
deriving DecidableEq, Repr

/-- Python truthiness of an optional string (`None` and `""` are falsy). -/
def truthyS : Option String → Bool
  | none => false
  | some s => s ≠ ""

/-- The `query_parts`-based query text built by `_query_with_filters`. -/
def queryText (q : QuerySpec) : String :=
  let query_parts :=
    (if truthyS q.category then [q.category.getD ""] else []) ++
    (if truthyS q.area then ["in " ++ q.area.getD ""] else []) ++
    (if truthyS q.price_level then
      ["that is " ++ q.price_level.getD "" ++ " price"] else [])
  "Reviews for a " ++ String.intercalate " " query_parts ++ "."

/-- The ordered `$eq` condition list built by `_query_with_filters`. -/
def conds (q : QuerySpec) : List (String × MetaVal) :=
  (if truthyS q.category then
    [("category", MetaVal.str (q.category.getD ""))] else []) ++
  (if truthyS q.area then
    [("area", MetaVal.str (q.area.getD ""))] else []) ++
  (if truthyS q.price_level then
    [("price_level", MetaVal.str (q.price_level.getD ""))] else []) ++
  q.vibe_features.map (fun f => (f, MetaVal.bool true))

/-- The `where` filter passed to the store: a single condition is passed
unwrapped, two or more are combined with `$and`, zero yields no filter. -/
inductive WhereFilter where
  | single (c : String × MetaVal)
  | and (cs : List (String × MetaVal))
deriving DecidableEq, Repr

/-- `where_filter` construction in `_query_with_filters`. -/
def whereFilter (q : QuerySpec) : Option WhereFilter :=
  match conds q with
  | [] => none
  | [c] => some (.single c)
  | cs => some (.and cs)

/-- The external vector store capability:
`query(query_text, where_filter, n_results) → document texts`.
The `try/except` in `_query_with_filters` is unreachable for a total
store. -/
def Store : Type := String → Option WhereFilter → Nat → List String

/-- `RAGEngine._query_with_filters`. -/
def query_with_filters (store : Store) (q : QuerySpec) : List String :=
  store (queryText q) (whereFilter q) q.k

/-- The feature keys that the RAG engine reads from the request dictionary
(`features.get(...)`); `none` models an absent key. -/
structure FeatureSet where
  category : Option String := none
  area : Option String := none
  price_level : Option String := none
  is_open_24_7 : Option Bool := none
  outdoor_seating : Option Bool := none
  live_music : Option Bool := none
deriving DecidableEq, Repr

/-- `active_vibe_features`: the vibe/operation fields whose request value is
`True`, in the fixed order of `vibe_operation_fields`. -/
def activeVibes (f : FeatureSet) : List String :=
  (if f.is_open_24_7 = some true then ["is_open_24_7"] else []) ++
  (if f.outdoor_seating = some true then ["outdoor_seating"] else []) ++
  (if f.live_music = some true then ["live_music"] else [])

/-- Attempt 1 (strict) query arguments. -/
def strictSpec (f : FeatureSet) (k : Nat) : QuerySpec :=
  { category := some (f.category.getD "restaurant")
    area := some (f.area.getD "Karachi")
    price_level := some (f.price_level.getD "moderate")
    vibe_features := activeVibes f
    k := k }

/-- Attempt 2 (relaxed) query arguments. -/
def relaxedSpec (f : FeatureSet) (k : Nat) : QuerySpec :=
  { category := some (f.category.getD "restaurant")
    area := some (f.area.getD "Karachi")
    price_level := some (f.price_level.getD "moderate")
    vibe_features := []
    k := k }

/-- Attempt 3 (broad) query arguments. -/
def broadSpec (f : FeatureSet) (k : Nat) : QuerySpec :=
  { category := some (f.category.getD "restaurant")
    area := none
    price_level := none
    vibe_features := []
    k := k }

/-- `RAGEngine.retrieve_reviews`, instrumented with the ordered list of
store queries that were executed. -/
def retrieve_reviews (store : Store) (f : FeatureSet) (k : Nat := 5) :
    List String × List QuerySpec :=
  let r1 := query_with_filters store (strictSpec f k)
  if r1 ≠ [] then (r1, [strictSpec f k])
  else
    let r2 := query_with_filters store (relaxedSpec f k)
    if r2 ≠ [] then (r2, [strictSpec f k, relaxedSpec f k])
    else
      let r3 := query_with_filters store (broadSpec f k)
      if r3 ≠ [] then (r3, [strictSpec f k, relaxedSpec f k, broadSpec f k])
      else ([], [strictSpec f k, relaxedSpec f k, broadSpec f k])

/-- The external generation capability: `prompt → generated text`. -/
def Llm : Type := String → String

/-- Python truthiness of an optional boolean (`features.get(field)`). -/
def truthyB : Option Bool → Bool
  | none => false
  | some b => b

/-- The fixed sentence returned when retrieval yields nothing. -/
def noReviewsSentence : String :=
  "No relevant historical reviews found to base advice on."

/-- The vibe/operation clause of the prompt's feature description, in the
order tested by `generate_advice`. -/
def vibeDescs (f : FeatureSet) : List String :=
  (if truthyB f.outdoor_seating then ["outdoor seating"] else []) ++
  (if truthyB f.live_music then ["live music"] else []) ++
  (if truthyB f.is_open_24_7 then ["24/7 operation"] else [])

/-- The consultant prompt built by `generate_advice` from the retrieved
reviews and the feature description. -/
def advicePrompt (f : FeatureSet) (reviews : List String) : String :=
  let reviews_text := String.intercalate "\n- " reviews
  let feature_desc₀ :=
    f.category.getD "restaurant" ++ " in " ++ f.area.getD "Karachi"
  let feature_desc :=
    if vibeDescs f ≠ [] then
      feature_desc₀ ++ " with " ++ String.intercalate ", " (vibeDescs f)
    else feature_desc₀
  "You are an expert Restaurant Consultant. \n" ++
  "A client is opening a new " ++ feature_desc ++ ".\n" ++
  "Here are reviews from similar existing restaurants with matching features:\n" ++
  "---\n" ++ reviews_text ++ "\n---\n" ++
  "Based ONLY on these reviews, list 3 key success factors and 1 potential pitfall " ++
  "for the new owner. Be concise."

/-- `RAGEngine.generate_advice`, instrumented with the list of prompts sent
to the generation capability (its length is the number of LLM calls).  The
LLM capability is total, so the `except` branch is unreachable; token and
latency metrics are observability side effects and are not modelled. -/
def generate_advice (store : Store) (llm : Llm) (f : FeatureSet) :
    String × List String :=
  let reviews := (retrieve_reviews store f).1
  if reviews = [] then (noReviewsSentence, [])
  else
    let prompt := advicePrompt f reviews
    (llm prompt, [prompt])

/-! ## Inference endpoint (`api.py` lines 333-430) -/

/-- The fields of `InferenceRequest` that the RAG engine reads.  The three
identity fields are required strings; the booleans default to `False`.  The
other twenty boolean fields of the request are never read by the RAG engine
and are omitted. -/
structure InferenceRequest where
  category : String
  area : String
  price_level : String
  is_open_24_7 : Bool := false
  outdoor_seating : Bool := false
  live_music : Bool := false
deriving DecidableEq, Repr

/-- The `features` dictionary built by `generate_inference`: every key is
present, so every field is `some`. -/
def featuresOf (req : InferenceRequest) : FeatureSet :=
  { category := some req.category
    area := some req.area
    price_level := some req.price_level
    is_open_24_7 := some req.is_open_24_7
    outdoor_seating := some req.outdoor_seating
    live_music := some req.live_music }

/-- The response payload of the `/inference` endpoint. -/
structure InferenceResponse where
  advice : String
  num_reviews_retrieved : Nat
  status : String
deriving DecidableEq, Repr

/-- `generate_inference` (the `/inference` handler) with an initialized RAG
engine: it retrieves once for the review count, calls `generate_advice`,
and returns the advice text as produced. -/
def generate_inference (store : Store) (llm : Llm)
    (req : InferenceRequest) : InferenceResponse :=
  let features := featuresOf req
  let reviews := (retrieve_reviews store features 5).1
  let advice := (generate_advice store llm features).1
  { advice := advice
    num_reviews_retrieved := reviews.length
    status := "success" }

/-! ## Helper lemmas -/

/-- `check_pii` only ever blocks or allows. -/
lemma check_pii_action_cases (rx : ReOracle) (text : String) :
    (check_pii rx text).action = .block ∨ (check_pii rx text).action = .allow := by
  simp only [check_pii]
  split <;> simp

/-- `check_prompt_injection` only ever blocks or allows. -/
lemma check_prompt_injection_action_cases (rx : ReOracle) (text : String) :
    (check_prompt_injection rx text).action = .block ∨
    (check_prompt_injection rx text).action = .allow := by
  simp only [check_prompt_injection]
  split <;> simp

/-- `check_hallucination` never returns `BLOCK`: it warns or allows. -/
lemma check_hallucination_action_cases (cfg : GuardrailConfig)
    (response : String) (ctx : List String) :
    (check_hallucination cfg response ctx).action = .warn ∨
    (check_hallucination cfg response ctx).action = .allow := by
  simp only [check_hallucination]
  split <;> simp

/-- The result of `validate` is the synthesized `ALLOW` or a blocking
per-check result. -/
lemma validate_fst_cases (cfg : GuardrailConfig) (rx : ReOracle)
    (text : String) :
    (validate cfg rx text).1 = allowAllInput ∨
    ((validate cfg rx text).1 = check_pii rx text ∧
      (check_pii rx text).action = .block) ∨
    ((validate cfg rx text).1 = check_prompt_injection rx text ∧
      (check_prompt_injection rx text).action = .block) ∨
    ((validate cfg rx text).1 = check_off_topic rx text ∧
      (check_off_topic rx text).action = .block) := by
  simp only [validate, validateStage2, validateStage3]
  split_ifs <;> simp_all

/-- The result of `moderate` is the synthesized `ALLOW`, a blocking
toxicity/hallucination result, or a modifying competitor result. -/
lemma moderate_fst_cases (cfg : GuardrailConfig) (rx : ReOracle)
    (response : String) (ctx : List String) :
    (moderate cfg rx response ctx).1 = allowAllOutput ∨
    ((moderate cfg rx response ctx).1 = check_toxicity rx response ∧
      (check_toxicity rx response).action = .block) ∨
    ((moderate cfg rx response ctx).1 = check_hallucination cfg response ctx ∧
      (check_hallucination cfg response ctx).action = .block) ∨
    ((moderate cfg rx response ctx).1 = check_competitor_mentions response ∧
      (check_competitor_mentions response).action = .modify) := by
  simp only [moderate, moderateStage2, moderateStage3]
  split_ifs <;> simp_all

/-! ## C2: the retrieval cascade -/

/-- C2: `retrieve_reviews` evaluates the three filter levels in the fixed
order strict (identity fields plus exactly the vibe fields whose request
value is `true`), relaxed (identity fields only), broad (category only);
it returns the first non-empty level's store result unchanged without
querying later levels, and it returns the empty sequence iff all three
levels return empty. -/
theorem retrieval_cascade_spec (store : Store) (f : FeatureSet) (k : Nat) :
    (query_with_filters store (strictSpec f k) ≠ [] →
      retrieve_reviews store f k =
        (query_with_filters store (strictSpec f k), [strictSpec f k])) ∧
    (query_with_filters store (strictSpec f k) = [] →
      query_with_filters store (relaxedSpec f k) ≠ [] →
      retrieve_reviews store f k =
        (query_with_filters store (relaxedSpec f k),
          [strictSpec f k, relaxedSpec f k])) ∧
    (query_with_filters store (strictSpec f k) = [] →
      query_with_filters store (relaxedSpec f k) = [] →
      retrieve_reviews store f k =
        (query_with_filters store (broadSpec f k),
          [strictSpec f k, relaxedSpec f k, broadSpec f k])) ∧
    ((retrieve_reviews store f k).1 = [] ↔
      (query_with_filters store (strictSpec f k) = [] ∧
       query_with_filters store (relaxedSpec f k) = [] ∧
       query_with_filters store (broadSpec f k) = [])) ∧
    (∀ v, v ∈ (strictSpec f k).vibe_features ↔
      ((v = "is_open_24_7" ∧ f.is_open_24_7 = some true) ∨
       (v = "outdoor_seating" ∧ f.outdoor_seating = some true) ∨
       (v = "live_music" ∧ f.live_music = some true))) ∧
    (relaxedSpec f k).vibe_features = [] ∧
    (broadSpec f k).area = none ∧
    (broadSpec f k).price_level = none ∧
    (broadSpec f k).vibe_features = [] ∧
    (broadSpec f k).category = (strictSpec f k).category ∧
    (relaxedSpec f k).category = (strictSpec f k).category ∧
    (relaxedSpec f k).area = (strictSpec f k).area ∧
    (relaxedSpec f k).price_level = (strictSpec f k).price_level := by
  refine ⟨?_, ?_, ?_, ?_, ?_, rfl, rfl, rfl, rfl, rfl, rfl, rfl, rfl⟩
  · intro h1
    simp [retrieve_reviews, h1]
  · intro h1 h2
    simp [retrieve_reviews, h1, h2]
  · intro h1 h2
    by_cases h3 : query_with_filters store (broadSpec f k) = [] <;>
      simp [retrieve_reviews, h1, h2, h3]
  · by_cases h1 : query_with_filters store (strictSpec f k) = [] <;>
      by_cases h2 : query_with_filters store (relaxedSpec f k) = [] <;>
      by_cases h3 : query_with_filters store (broadSpec f k) = [] <;>
      simp [retrieve_reviews, h1, h2, h3]
  · intro v
    by_cases h1 : f.is_open_24_7 = some true <;>
      by_cases h2 : f.outdoor_seating = some true <;>
      by_cases h3 : f.live_music = some true <;>
      simp [strictSpec, activeVibes, h1, h2, h3]

/-- Witness for C2 at a concrete store that answers every query: the strict
level wins and is the only query issued. -/
theorem retrieval_cascade_spec_witness :
    retrieve_reviews (fun _ _ _ => ["doc1"]) ({} : FeatureSet) 5 =
      (["doc1"], [strictSpec ({} : FeatureSet) 5]) :=
  (retrieval_cascade_spec (fun _ _ _ => ["doc1"]) ({} : FeatureSet) 5).1
    (by decide)

/-! ## C7: empty retrieval short-circuits the generation capability -/

/-- C7: when the retrieval cascade returns no reviews, `generate_advice`
returns the fixed "no relevant historical reviews" sentence and makes zero
calls to the generation capability. -/
theorem generate_advice_no_reviews (store : Store) (llm : Llm)
    (f : FeatureSet) (h : (retrieve_reviews store f).1 = []) :
    generate_advice store llm f = (noReviewsSentence, []) := by
  simp [generate_advice, h]

/-- Witness for C7 at the empty store. -/
theorem generate_advice_no_reviews_witness :
    generate_advice (fun _ _ _ => []) (fun p => p) ({} : FeatureSet) =
      (noReviewsSentence, []) :=
  generate_advice_no_reviews (fun _ _ _ => []) (fun p => p) ({} : FeatureSet)
    (by decide)

/-- `check_hallucination` never returns `BLOCK`. -/
lemma check_hallucination_ne_block (cfg : GuardrailConfig)
    (response : String) (ctx : List String) :
    (check_hallucination cfg response ctx).action ≠ .block := by
  rcases check_hallucination_action_cases cfg response ctx with h | h <;>
    simp [h]

/-! ## C4: the input validation pipeline -/

/-- C4: `validate` runs the enabled checks in the fixed order PII,
prompt-injection, off-topic; a `BLOCK` from PII or prompt-injection is
returned immediately without running later checks; an off-topic `BLOCK` is
returned only under `strict_mode` and is otherwise swallowed; if no check
terminates the pipeline, `validate` returns `ALLOW` with rule type
`"all_input_checks"`. -/
theorem validate_pipeline_spec (cfg : GuardrailConfig) (rx : ReOracle)
    (text : String) :
    (cfg.enable_pii_detection = true →
      (check_pii rx text).action = .block →
      validate cfg rx text = (check_pii rx text, ["pii_detection"])) ∧
    ((cfg.enable_pii_detection = false ∨
        (check_pii rx text).action ≠ .block) →
      cfg.enable_prompt_injection_filter = true →
      (check_prompt_injection rx text).action = .block →
      validate cfg rx text =
        (check_prompt_injection rx text,
          (if cfg.enable_pii_detection then ["pii_detection"] else []) ++
            ["prompt_injection"])) ∧
    ((cfg.enable_pii_detection = false ∨
        (check_pii rx text).action ≠ .block) →
      (cfg.enable_prompt_injection_filter = false ∨
        (check_prompt_injection rx text).action ≠ .block) →
      cfg.enable_off_topic_detection = true →
      (check_off_topic rx text).action = .block →
      validate cfg rx text =
        ((if cfg.strict_mode then check_off_topic rx text else allowAllInput),
          (if cfg.enable_pii_detection then ["pii_detection"] else []) ++
            (if cfg.enable_prompt_injection_filter then
              ["prompt_injection"] else []) ++ ["off_topic"])) ∧
    ((cfg.enable_pii_detection = false ∨
        (check_pii rx text).action ≠ .block) →
      (cfg.enable_prompt_injection_filter = false ∨
        (check_prompt_injection rx text).action ≠ .block) →
      (cfg.enable_off_topic_detection = false ∨
        (check_off_topic rx text).action ≠ .block ∨
        cfg.strict_mode = false) →
      validate cfg rx text =
        (allowAllInput,
          (if cfg.enable_pii_detection then ["pii_detection"] else []) ++
            (if cfg.enable_prompt_injection_filter then
              ["prompt_injection"] else []) ++
            (if cfg.enable_off_topic_detection then ["off_topic"] else []))) := by
  refine ⟨?_, ?_, ?_, ?_⟩
  · intro he hb
    simp [validate, he, hb]
  · intro hp hi hb
    by_cases hpe : cfg.enable_pii_detection <;>
      rcases hp with hp | hp <;>
      simp_all [validate, validateStage2, hb]
  · intro hp hq ho hb
    by_cases hpe : cfg.enable_pii_detection <;>
      by_cases hie : cfg.enable_prompt_injection_filter <;>
      by_cases hs : cfg.strict_mode <;>
      rcases hp with hp | hp <;>
      rcases hq with hq | hq <;>
      simp_all [validate, validateStage2, validateStage3, hb]
  · intro hp hq ho
    by_cases hpe : cfg.enable_pii_detection <;>
      by_cases hie : cfg.enable_prompt_injection_filter <;>
      by_cases hoe : cfg.enable_off_topic_detection <;>
      by_cases hs : cfg.strict_mode <;>
      rcases hp with hp | hp <;>
      rcases hq with hq | hq <;>
      rcases ho with ho | ho | ho <;>
      simp_all [validate, validateStage2, validateStage3]

/-- Witness for C4: with an oracle matching nothing and the default
configuration, all three checks run in order and the pipeline allows. -/
theorem validate_pipeline_spec_witness :
    validate defaultConfig ⟨fun _ _ => false, fun _ => false, fun _ => false,
        fun _ => false⟩ "hello" =
      (allowAllInput, ["pii_detection", "prompt_injection", "off_topic"]) :=
  (validate_pipeline_spec defaultConfig
      ⟨fun _ _ => false, fun _ => false, fun _ => false, fun _ => false⟩
      "hello").2.2.2
    (Or.inr (by decide)) (Or.inr (by decide)) (Or.inr (Or.inl (by decide)))

/-! ## C5: the output moderation pipeline -/

/-- C5: `moderate` runs the enabled checks in the order toxicity,
hallucination, competitor-filter; a toxicity `BLOCK` is returned
immediately; the hallucination check never terminates the pipeline (its
result is computed and dropped, and evaluation proceeds to the competitor
stage); a competitor `MODIFY` is returned immediately, carrying the
modified text; if nothing terminates, `moderate` returns `ALLOW` with rule
type `"all_output_checks"`. -/
theorem moderate_pipeline_spec (cfg : GuardrailConfig) (rx : ReOracle)
    (response : String) (ctx : List String) :
    (cfg.enable_toxicity_filter = true →
      (check_toxicity rx response).action = .block →
      moderate cfg rx response ctx =
        (check_toxicity rx response, ["toxicity_filter"])) ∧
    ((cfg.enable_toxicity_filter = false ∨
        (check_toxicity rx response).action ≠ .block) →
      cfg.enable_hallucination_filter = true →
      moderate cfg rx response ctx =
        moderateStage3 cfg response
          ((if cfg.enable_toxicity_filter then ["toxicity_filter"] else []) ++
            ["hallucination_filter"])) ∧
    ((cfg.enable_toxicity_filter = false ∨
        (check_toxicity rx response).action ≠ .block) →
      cfg.enable_competitor_filter = true →
      (check_competitor_mentions response).action = .modify →
      moderate cfg rx response ctx =
        (check_competitor_mentions response,
          (if cfg.enable_toxicity_filter then ["toxicity_filter"] else []) ++
            (if cfg.enable_hallucination_filter then
              ["hallucination_filter"] else []) ++ ["competitor_filter"])) ∧
    ((cfg.enable_toxicity_filter = false ∨
        (check_toxicity rx response).action ≠ .block) →
      (cfg.enable_competitor_filter = false ∨
        (check_competitor_mentions response).action ≠ .modify) →
      moderate cfg rx response ctx =
        (allowAllOutput,
          (if cfg.enable_toxicity_filter then ["toxicity_filter"] else []) ++
            (if cfg.enable_hallucination_filter then
              ["hallucination_filter"] else []) ++
            (if cfg.enable_competitor_filter then
              ["competitor_filter"] else []))) := by
  have hnb := check_hallucination_ne_block cfg response ctx
  refine ⟨?_, ?_, ?_, ?_⟩
  · intro he hb
    simp [moderate, he, hb]
  · intro ht hh
    by_cases hte : cfg.enable_toxicity_filter <;>
      rcases ht with ht | ht <;>
      simp_all [moderate, moderateStage2]
  · intro ht hc hm
    by_cases hte : cfg.enable_toxicity_filter <;>
      by_cases hhe : cfg.enable_hallucination_filter <;>
      rcases ht with ht | ht <;>
      simp_all [moderate, moderateStage2, moderateStage3]
  · intro ht hc
    by_cases hte : cfg.enable_toxicity_filter <;>
      by_cases hhe : cfg.enable_hallucination_filter <;>
      by_cases hce : cfg.enable_competitor_filter <;>
      rcases ht with ht | ht <;>
      rcases hc with hc | hc <;>
      simp_all [moderate, moderateStage2, moderateStage3]

/-- Witness for C5: with an oracle matching nothing, the default
configuration (competitor filter disabled) runs toxicity and hallucination
and allows. -/
theorem moderate_pipeline_spec_witness :
    moderate defaultConfig ⟨fun _ _ => false, fun _ => false, fun _ => false,
        fun _ => false⟩ "ok" [] =
      (allowAllOutput, ["toxicity_filter", "hallucination_filter"]) :=
  (moderate_pipeline_spec defaultConfig
      ⟨fun _ _ => false, fun _ => false, fun _ => false, fun _ => false⟩
      "ok" []).2.2.2
    (Or.inr (by decide)) (Or.inl (by decide))

/-! ## C8: the `modified_content` invariant -/

/-- The invariant claimed for every `GuardrailResult`: `modified_content`
is non-null iff the action is `MODIFY`. -/
def modifiedIffModify (r : GuardrailResult) : Prop :=
  r.modified_content.isSome = true ↔ r.action = .modify

/-- C8: every result produced by any individual check or by either
pipeline satisfies: `modified_content` is non-null iff
`action == MODIFY`. -/
theorem modified_content_invariant (cfg : GuardrailConfig) (rx : ReOracle)
    (text response : String) (ctx : List String) :
    modifiedIffModify (check_pii rx text) ∧
    modifiedIffModify (check_prompt_injection rx text) ∧
    modifiedIffModify (check_off_topic rx text) ∧
    modifiedIffModify (check_toxicity rx response) ∧
    modifiedIffModify (check_hallucination cfg response ctx) ∧
    modifiedIffModify (check_competitor_mentions response) ∧
    modifiedIffModify (validate cfg rx text).1 ∧
    modifiedIffModify (moderate cfg rx response ctx).1 := by
  have hpii : modifiedIffModify (check_pii rx text) := by
    simp only [modifiedIffModify, check_pii]
    split <;> simp
  have hinj : modifiedIffModify (check_prompt_injection rx text) := by
    simp only [modifiedIffModify, check_prompt_injection]
    split <;> simp
  have hoff : modifiedIffModify (check_off_topic rx text) := by
    simp only [modifiedIffModify, check_off_topic]
    split <;> [simp; split <;> simp]
  have htox : modifiedIffModify (check_toxicity rx response) := by
    simp only [modifiedIffModify, check_toxicity]
    split <;> simp
  have hhal : modifiedIffModify (check_hallucination cfg response ctx) := by
    simp only [modifiedIffModify, check_hallucination]
    split <;> simp
  have hcomp : modifiedIffModify (check_competitor_mentions response) := by
    simp only [modifiedIffModify, check_competitor_mentions]
    split <;> simp
  have hval : modifiedIffModify (validate cfg rx text).1 := by
    rcases validate_fst_cases cfg rx text with h | ⟨h, _⟩ | ⟨h, _⟩ | ⟨h, _⟩ <;>
      rw [h]
    · simp [modifiedIffModify, allowAllInput]
    · exact hpii
    · exact hinj
    · exact hoff
  have hmod : modifiedIffModify (moderate cfg rx response ctx).1 := by
    rcases moderate_fst_cases cfg rx response ctx with
      h | ⟨h, _⟩ | ⟨h, _⟩ | ⟨h, _⟩ <;> rw [h]
    · simp [modifiedIffModify, allowAllOutput]
    · exact htox
    · exact hhal
    · exact hcomp
  exact ⟨hpii, hinj, hoff, htox, hhal, hcomp, hval, hmod⟩

/-! ## C9: the actions surfaced by the two pipelines -/

/-- C9: `validate` only ever surfaces `ALLOW` or `BLOCK` (never `WARN` or
`MODIFY`), and `moderate` only ever surfaces `ALLOW`, `BLOCK` or `MODIFY`
(never `WARN`): soft warnings computed inside either pipeline are not
surfaced as the pipeline's result. -/
theorem pipeline_action_range (cfg : GuardrailConfig) (rx : ReOracle)
    (text response : String) (ctx : List String) :
    ((validate cfg rx text).1.action = .allow ∨
      (validate cfg rx text).1.action = .block) ∧
    ((moderate cfg rx response ctx).1.action = .allow ∨
      (moderate cfg rx response ctx).1.action = .block ∨
      (moderate cfg rx response ctx).1.action = .modify) := by
  constructor
  · rcases validate_fst_cases cfg rx text with h | ⟨h, hb⟩ | ⟨h, hb⟩ | ⟨h, hb⟩
    · left
      rw [h]
      rfl
    all_goals right; rw [h]; exact hb
  · rcases moderate_fst_cases cfg rx response ctx with
      h | ⟨h, hb⟩ | ⟨h, hb⟩ | ⟨h, hb⟩
    · left
      rw [h]
      rfl
    · right; left; rw [h]; exact hb
    · right; left; rw [h]; exact hb
    · right; right; rw [h]; exact hb

/-! ## C6: monotonicity of the hallucination score in the overlap -/

/-- C6: for a fixed response and two supplied non-empty contexts, a smaller
(or equal) word-overlap quotient yields a greater (or equal) hallucination
score. -/
theorem hallucination_monotone_in_overlap (response : String)
    (ctx1 ctx2 : List String) (h1 : ctx1 ≠ []) (h2 : ctx2 ≠ [])
    (h : overlapFrac response ctx1 ≤ overlapFrac response ctx2) :
    hallucinationScore response ctx2 ≤ hallucinationScore response ctx1 := by
  simp only [hallucinationScore]
  rw [if_pos h1, if_pos h2]
  apply add_le_add_left
  by_cases hc : overlapFrac response ctx2 < 1/10
  · rw [if_pos hc, if_pos (lt_of_le_of_lt h hc)]
  · rw [if_neg hc]
    split_ifs <;> norm_num

/-- Witness for C6: a context sharing no word with the response versus a
context sharing every word of it. -/
theorem hallucination_monotone_in_overlap_witness :
    hallucinationScore "pizza review" ["pizza review detail"] ≤
      hallucinationScore "pizza review" ["nothing matches"] := by
  have hzero : overlapFrac "pizza review" ["nothing matches"] = 0 := by
    have h0 : ((pyWords (pyLower "pizza review")).dedup.filter
        (fun w => w ∈
          (pyWords (pyLower
            (String.intercalate " " ["nothing matches"]))).dedup)).length
        = 0 := by decide
    simp only [overlapFrac]
    rw [h0]
    norm_num
  have hle : overlapFrac "pizza review" ["nothing matches"] ≤
      overlapFrac "pizza review" ["pizza review detail"] := by
    rw [hzero]
    have : (0 : ℚ) ≤ overlapFrac "pizza review" ["pizza review detail"] := by
      simp only [overlapFrac]
      positivity
    exact this
  exact hallucination_monotone_in_overlap "pizza review"
    ["nothing matches"] ["pizza review detail"] (by decide) (by decide) hle

/-! ## C3: the hallucination scorer -/

/-- The claim's word-overlap ratio, stated on finite sets of lower-cased
whitespace tokens: `|words(response) ∩ words(context)| /
max(|words(response)|, 1)`. -/
def claimOverlapFrac (response : String) (ctx : List String) : ℚ :=
  (((pyWords (pyLower response)).toFinset ∩
      (pyWords (pyLower (String.intercalate " " ctx))).toFinset).card : ℚ) /
    (max (pyWords (pyLower response)).toFinset.card 1 : ℚ)

/-- The claim's score formula: start at 0; add 0.3 if more than two
uncertainty phrases occur; add 0.3 if no grounding phrase occurs and the
response exceeds 200 characters; add 0.4 if a non-empty context is supplied
and the word-overlap ratio is below 0.10. -/
def claimHallucinationScore (response : String) (ctx : List String) : ℚ :=
  (if 2 < uncertaintyCount response then 3/10 else 0) +
  (if groundingCount response = 0 ∧ 200 < response.length then 3/10 else 0) +
  (if ctx ≠ [] ∧ claimOverlapFrac response ctx < 1/10 then 4/10 else 0)

/-- Intersection cardinality of the token sets equals the length of the
deduplicated filtered token list computed by the source. -/
lemma toFinset_inter_card (l1 l2 : List String) :
    (l1.toFinset ∩ l2.toFinset).card =
      (l1.dedup.filter (fun w => w ∈ l2.dedup)).length := by
  have h : l1.toFinset ∩ l2.toFinset =
      l1.toFinset.filter (fun w => w ∈ l2.dedup) := by
    ext w
    simp [List.mem_toFinset, List.mem_dedup, and_comm]
  rw [h]
  simp [List.toFinset, Multiset.toFinset, Finset.filter, Finset.card]

/-- The claim's ratio coincides with the source's computation. -/
lemma claimOverlapFrac_eq (response : String) (ctx : List String) :
    claimOverlapFrac response ctx = overlapFrac response ctx := by
  simp only [claimOverlapFrac, overlapFrac]
  rw [toFinset_inter_card, List.card_toFinset]

/-- The claim's score formula coincides with the source's accumulation. -/
lemma claimHallucinationScore_eq (response : String) (ctx : List String) :
    claimHallucinationScore response ctx = hallucinationScore response ctx := by
  simp only [claimHallucinationScore, hallucinationScore, claimOverlapFrac_eq]
  by_cases hc : ctx = [] <;>
    by_cases hf : overlapFrac response ctx < 1/10 <;>
    simp [hc, hf]

/-- C3: `check_hallucination` computes the claimed score and returns `WARN`
with `confidence = score` when the score reaches `hallucination_threshold`
(`1/2` in the default configuration), otherwise `ALLOW` with
`confidence = 1 - score`; it never returns `BLOCK`. -/
theorem check_hallucination_spec (cfg : GuardrailConfig) (response : String)
    (ctx : List String) :
    (claimHallucinationScore response ctx ≥ cfg.hallucination_threshold →
      check_hallucination cfg response ctx =
        { action := .warn
          rule_type := "hallucination_filter"
          reason := some "Response may not be grounded in knowledge base"
          confidence := claimHallucinationScore response ctx }) ∧
    (claimHallucinationScore response ctx < cfg.hallucination_threshold →
      check_hallucination cfg response ctx =
        { action := .allow
          rule_type := "hallucination_filter"
          confidence := 1 - claimHallucinationScore response ctx }) ∧
    (check_hallucination cfg response ctx).action ≠ .block ∧
    defaultConfig.hallucination_threshold = 1/2 := by
  refine ⟨?_, ?_, check_hallucination_ne_block cfg response ctx, rfl⟩
  · intro h
    rw [claimHallucinationScore_eq] at h
    simp only [check_hallucination]
    rw [if_pos h, claimHallucinationScore_eq]
  · intro h
    rw [claimHallucinationScore_eq] at h
    simp only [check_hallucination]
    rw [if_neg (not_le.mpr h), claimHallucinationScore_eq]

/-- Witness for C3: a short ungrounded response with no supplied context
scores 0 and is allowed with confidence 1 - 0. -/
theorem check_hallucination_spec_witness :
    check_hallucination defaultConfig "ok" [] =
      { action := .allow
        rule_type := "hallucination_filter"
        confidence := 1 - claimHallucinationScore "ok" [] } :=
  (check_hallucination_spec defaultConfig "ok" []).2.1 (by
    have h1 : uncertaintyCount "ok" = 0 := by decide
    have h2 : ¬(200 < "ok".length) := by decide
    simp [claimHallucinationScore, h1, h2, defaultConfig])

/-! ## C1: moderation of the generated advice -/

/-- C1 counterexample: a concrete request, store, generation capability and
regex oracle for which the output pipeline blocks the generated text, yet
`generate_inference` returns the raw generated text rather than the
facade's fallback message — the advice is not passed through `moderate`. -/
theorem inference_skips_moderation_counterexample :
    (generate_inference (fun _ _ _ => ["doc"]) (fun _ => "X")
        ⟨"Cafe", "Clifton", "moderate", false, false, false⟩).advice = "X" ∧
    (moderate defaultConfig
        ⟨fun _ _ => false, fun _ => false, fun _ => false, fun _ => true⟩
        "X" ["doc"]).1.action = .block ∧
    (generate_inference (fun _ _ _ => ["doc"]) (fun _ => "X")
        ⟨"Cafe", "Clifton", "moderate", false, false, false⟩).advice ≠
      get_blocked_response (moderate defaultConfig
        ⟨fun _ _ => false, fun _ => false, fun _ => false, fun _ => true⟩
        "X" ["doc"]).1 := by
  refine ⟨rfl, ?_, ?_⟩ <;> decide

/-- C1 amended: the `/inference` handler returns the text produced by
`generate_advice` unchanged; the Output Guardrail Pipeline is never applied
to it and no fallback substitution occurs, even when `moderate` would block
the generated text. -/
theorem inference_returns_unmoderated_advice (store : Store) (llm : Llm)
    (req : InferenceRequest) (cfg : GuardrailConfig) (rx : ReOracle)
    (ctx : List String)
    (_h : (moderate cfg rx (generate_advice store llm (featuresOf req)).1
        ctx).1.action = .block) :
    (generate_inference store llm req).advice =
      (generate_advice store llm (featuresOf req)).1 := rfl

/-- Witness for the amended C1 at a blocking oracle. -/
theorem inference_returns_unmoderated_advice_witness :
    (generate_inference (fun _ _ _ => ["doc"]) (fun _ => "Y")
        ⟨"Cafe", "Clifton", "moderate", false, false, false⟩).advice =
      (generate_advice (fun _ _ _ => ["doc"]) (fun _ => "Y")
        (featuresOf ⟨"Cafe", "Clifton", "moderate", false, false, false⟩)).1 :=
  inference_returns_unmoderated_advice (fun _ _ _ => ["doc"]) (fun _ => "Y")
    ⟨"Cafe", "Clifton", "moderate", false, false, false⟩ defaultConfig
    ⟨fun _ _ => false, fun _ => false, fun _ => false, fun _ => true⟩ []
    (by decide)

/-! ## C10: identity-field defaults in the retrieval filters -/

/-- C10 counterexample: for the feature set `{"area": ""}` (category and
price_level missing, area present as the empty string), the strict- and
relaxed-level queries substitute defaults for the missing fields but carry
no equality condition on `area`, because the present empty string is falsy
in `_query_with_filters`; so the queries do not carry equality conditions
on all three identity fields. -/
theorem retrieve_defaults_counterexample :
    (({ category := none, area := some "", price_level := none } :
        FeatureSet).category = none) ∧
    ((conds (strictSpec
        { category := none, area := some "", price_level := none } 5)).map
        Prod.fst = ["category", "price_level"]) ∧
    ((conds (relaxedSpec
        { category := none, area := some "", price_level := none } 5)).map
        Prod.fst = ["category", "price_level"]) ∧
    ((retrieve_reviews (fun _ _ _ => [])
        { category := none, area := some "", price_level := none } 5).2 =
      [strictSpec { category := none, area := some "", price_level := none } 5,
       relaxedSpec { category := none, area := some "", price_level := none } 5,
       broadSpec { category := none, area := some "", price_level := none } 5]) := by
  refine ⟨rfl, ?_, ?_, ?_⟩ <;> decide

/-- C10 amended: missing identity fields are substituted with the defaults
"restaurant"/"Karachi"/"moderate"; the strict- and relaxed-level queries
carry an equality condition on an identity field iff its substituted value
is a non-empty string (hence on all three whenever every present identity
value is non-empty — in particular for the empty feature set, which
produces store queries starting with the all-defaults strict query rather
than an error). -/
theorem retrieve_defaults_spec (f : FeatureSet) (k : Nat) (store : Store) :
    (f.category = none →
      (strictSpec f k).category = some "restaurant" ∧
      (relaxedSpec f k).category = some "restaurant" ∧
      (broadSpec f k).category = some "restaurant") ∧
    (f.area = none →
      (strictSpec f k).area = some "Karachi" ∧
      (relaxedSpec f k).area = some "Karachi") ∧
    (f.price_level = none →
      (strictSpec f k).price_level = some "moderate" ∧
      (relaxedSpec f k).price_level = some "moderate") ∧
    (("category", MetaVal.str (f.category.getD "restaurant")) ∈
        conds (strictSpec f k) ↔ f.category.getD "restaurant" ≠ "") ∧
    (("area", MetaVal.str (f.area.getD "Karachi")) ∈
        conds (strictSpec f k) ↔ f.area.getD "Karachi" ≠ "") ∧
    (("price_level", MetaVal.str (f.price_level.getD "moderate")) ∈
        conds (strictSpec f k) ↔ f.price_level.getD "moderate" ≠ "") ∧
    (("category", MetaVal.str (f.category.getD "restaurant")) ∈
        conds (relaxedSpec f k) ↔ f.category.getD "restaurant" ≠ "") ∧
    (("area", MetaVal.str (f.area.getD "Karachi")) ∈
        conds (relaxedSpec f k) ↔ f.area.getD "Karachi" ≠ "") ∧
    (("price_level", MetaVal.str (f.price_level.getD "moderate")) ∈
        conds (relaxedSpec f k) ↔ f.price_level.getD "moderate" ≠ "") ∧
    conds (strictSpec ({} : FeatureSet) k) =
      [("category", MetaVal.str "restaurant"),
       ("area", MetaVal.str "Karachi"),
       ("price_level", MetaVal.str "moderate")] ∧
    (retrieve_reviews store ({} : FeatureSet) k).2.head? =
      some (strictSpec ({} : FeatureSet) k) := by
  refine ⟨?_, ?_, ?_, ?_, ?_, ?_, ?_, ?_, ?_, ?_, ?_⟩
  · intro h
    simp [strictSpec, relaxedSpec, broadSpec, h]
  · intro h
    simp [strictSpec, relaxedSpec, h]
  · intro h
    simp [strictSpec, relaxedSpec, h]
  all_goals
    try simp [conds, strictSpec, relaxedSpec, truthyS, activeVibes]
  · simp only [retrieve_reviews]
    split_ifs <;> rfl

/-- Witness for the amended C10 at the empty feature set. -/
theorem retrieve_defaults_spec_witness :
    (strictSpec ({} : FeatureSet) 5).category = some "restaurant" ∧
    (relaxedSpec ({} : FeatureSet) 5).category = some "restaurant" ∧
    (broadSpec ({} : FeatureSet) 5).category = some "restaurant" :=
  (retrieve_defaults_spec ({} : FeatureSet) 5 (fun _ _ _ => [])).1 rfl

end TasteKarachi
